import Mathlib

/-!
Shallow embedding of the Sakha.ai client-side chat interface
(`src/unnamed/part_000`, the `I18n` class, and `src/static/script.js`,
the `SakhaAI` class) together with proofs about its specified behaviour.

The JavaScript operates on strings, DOM state and fetch results.  We model
strings as Lean `String`/`List Char`, DOM state as explicit records, and
each asynchronous fetch by an explicit outcome parameter; side effects
(storage writes, dispatched events, issued requests) are returned as
explicit traces.  Character-level scanners that embed the JavaScript regex
replacements take a fuel argument equal to the input length: every step
consumes at least one character and exactly one unit of fuel, so the
zero-fuel branch is unreachable on the arguments the wrappers supply.
-/

set_option maxRecDepth 8000

namespace Sakha

/-! ### Character-level helpers -/

/-- JavaScript `\w` character class (as used in `/\{\{(\w+)\}\}/`):
ASCII letters, digits and underscore. -/
def isWordChar (c : Char) : Bool :=
  (('a' ≤ c && c ≤ 'z') || ('A' ≤ c && c ≤ 'Z') ||
   ('0' ≤ c && c ≤ '9') || c == '_')

/-- JavaScript whitespace (`\s`, and the characters `String.prototype.trim`
strips), restricted to the ASCII range the application's strings use. -/
def isJsSpace (c : Char) : Bool :=
  c == ' ' || c == '\t' || c == '\n' || c == '\r' || c == '\x0b' || c == '\x0c'

/-- `leadsWith pat l` is true when `pat` is an initial run of `l`
(the anchored-prefix test used to embed literal regex fragments). -/
def leadsWith : List Char → List Char → Bool
  | [], _ => true
  | _ :: _, [] => false
  | p :: ps, c :: cs => p == c && leadsWith ps cs

/-- JavaScript `String.prototype.trim()` on the application's ASCII input:
drop whitespace from both ends. -/
def trimmed (s : String) : String :=
  String.mk (((s.data.dropWhile isJsSpace).reverse.dropWhile isJsSpace).reverse)

/-- JavaScript `key.split('.')` at character level: splitting on `.`,
with `""` splitting to `[""]` and separators at the ends producing
empty segments, exactly as in JavaScript. -/
def splitOnDot : List Char → List (List Char)
  | [] => [[]]
  | c :: cs =>
    if c = '.' then [] :: splitOnDot cs
    else
      match splitOnDot cs with
      | l :: ls => (c :: l) :: ls
      | [] => [[c]]

/-! ### The Translation Table and `I18n.t` (src/unnamed/part_000, lines 89-110) -/

/-- A JSON translation document as loaded from `/static/languages/*.json`:
a tree whose leaves are strings and whose inner nodes are objects
(modelled as association lists in insertion order, matching JavaScript
object key order for the string keys used here). -/
inductive TValue where
  | str : String → TValue
  | obj : List (String × TValue) → TValue

/-- JavaScript `k in value` followed by `value[k]` on an object:
look up the (unique) own property named `k`. -/
def objLookup (k : String) : List (String × TValue) → Option TValue
  | [] => none
  | (k2, v) :: rest => if k2 = k then some v else objLookup k rest

/-- The key-walking loop of `I18n.t` (lines 93-100): walk the table by
successive segments; `none` models the early `return key` taken when a
segment is missing or an intermediate value is not an object. -/
def resolve : TValue → List String → Option TValue
  | v, [] => some v
  | TValue.str _, _ :: _ => none
  | TValue.obj m, k :: ks =>
    match objLookup k m with
    | some v2 => resolve v2 ks
    | none => none

/-- `key.split('.')` as a list of `String` segments. -/
def keySegs (key : String) : List String :=
  (splitOnDot key.data).map String.mk

/-- The replacement callback of `I18n.t` (line 105): `params[param] || match`.
An absent parameter, and equally an empty-string (falsy) parameter, leave
the matched placeholder text verbatim. -/
def renderPh (ps : List (String × String)) (name : String) : String :=
  let matchText := ("\x7b\x7b") ++ name ++ ("\x7d\x7d")
  match ps.lookup name with
  | some v => if v = "" then matchText else v
  | none => matchText

/-- First step of matching `/\{\{(\w+)\}\}/` at the current position:
recognise the two-character opener. -/
def braceOpen (c : Char) (cs : List Char) : Option (List Char) :=
  match cs with
  | d :: rest => if c = '\x7b' ∧ d = '\x7b' then some rest else none
  | [] => none

/-- Rest of matching `/\{\{(\w+)\}\}/` after the opener: a non-empty
greedy run of word characters followed by the two-character closer.
(Backtracking cannot help: a shorter `\w+` run would put a word character
where `\}` must match.)  Returns the name and the text after the match. -/
def phMatch (rest : List Char) : Option (List Char × List Char) :=
  let ws := rest.takeWhile isWordChar
  match rest.dropWhile isWordChar with
  | e1 :: e2 :: tail =>
    if e1 = '\x7d' ∧ e2 = '\x7d' ∧ ws ≠ [] then some (ws, tail) else none
  | _ => none

/-- The global replace `value.replace(/\{\{(\w+)\}\}/g, ...)` (line 104),
scanning left to right; on a failed match at a position the scan advances
one character, exactly like the regex engine.  Fuel decreases by one per
step while at least one character is consumed, so fuel equal to the input
length never runs out. -/
def substAuxF (ps : List (String × String)) : Nat → List Char → List Char
  | 0, l => l
  | _ + 1, [] => []
  | f + 1, c :: cs =>
    match braceOpen c cs with
    | some rest =>
      match phMatch rest with
      | some (ws, tail) =>
        (renderPh ps (String.mk ws)).data ++ substAuxF ps f tail
      | none => c :: substAuxF ps f cs
    | none => c :: substAuxF ps f cs

/-- The parameter-substitution pass of `I18n.t` (lines 104-106). -/
def substPlaceholders (ps : List (String × String)) (s : String) : String :=
  String.mk (substAuxF ps s.data.length s.data)

/-- `I18n.t(key, params)` (lines 89-110).  The result is a `TValue`
because the JavaScript returns the raw resolved value when the walk ends
on a nested object (line 109) and a string otherwise. -/
def t (table : TValue) (key : String) (ps : List (String × String)) : TValue :=
  match resolve table (keySegs key) with
  | none => TValue.str key
  | some (TValue.str s) => TValue.str (substPlaceholders ps s)
  | some v => v

/-- The string JavaScript callers observe from `I18n.t`: string results
verbatim; a nested-object result would be coerced to `"[object Object]"`
wherever script.js inserts it as text. -/
def tStr (table : TValue) (key : String) : String :=
  match t table key [] with
  | TValue.str s => s
  | TValue.obj _ => "[object Object]"

/-! ### `I18n.loadTranslations` and `I18n.setLanguage`
(src/unnamed/part_000, lines 29-53 and 112-124) -/

/-- Observable side effects of the `I18n` asynchronous operations, in the
order they occur: `fetchLang` a GET of a translation document, `applyDom`
the DOM pass of `applyTranslations`, `warn`/`logError` console output,
`storageWrite` a `localStorage.setItem`, `langEvent` the dispatched
`languageChanged` custom event with its `detail.language` code. -/
inductive I18nEffect where
  | fetchLang : String → I18nEffect
  | applyDom : I18nEffect
  | warn : String → I18nEffect
  | logError : String → I18nEffect
  | storageWrite : String → String → I18nEffect
  | langEvent : String → I18nEffect

/-- Outcome of the guarded fetch in `loadTranslations`: the response was
ok and its JSON body parsed (`success`), the response was not ok
(`notOk`), or the fetch or body parse rejected (`jsError`). -/
inductive FetchResult where
  | success : TValue → FetchResult
  | notOk : FetchResult
  | jsError : FetchResult

/-- Mutable state of the `I18n` instance. -/
structure I18nState where
  currentLanguage : String
  translations : TValue

/-- `I18n.loadFallbackTranslations` (lines 45-53).  The code never checks
`response.ok` here, so the fallback outcome is just whether
`fetch`+`json()` produced a document (`some`) or rejected (`none`).
Returns the replacement table (if any) and the effect trace. -/
def loadFallbackTranslations (fallback : Option TValue) :
    Option TValue × List I18nEffect :=
  match fallback with
  | some doc => (some doc, [I18nEffect.fetchLang ("en"), I18nEffect.applyDom])
  | none =>
    (none, [I18nEffect.fetchLang ("en"),
            I18nEffect.logError ("Failed to load fallback translations:")])

/-- `I18n.loadTranslations` (lines 29-43) for language `lang`:
on a non-ok response it warns and falls back; on a thrown error it logs
and falls back.  Returns the replacement table (if any) and the trace. -/
def loadTranslations (lang : String) (primary : FetchResult)
    (fallback : Option TValue) : Option TValue × List I18nEffect :=
  match primary with
  | FetchResult.success doc =>
    (some doc, [I18nEffect.fetchLang lang, I18nEffect.applyDom])
  | FetchResult.notOk =>
    let (r, fx) := loadFallbackTranslations fallback
    (r, I18nEffect.fetchLang lang ::
        I18nEffect.warn ("Failed to load translations, falling back to English") :: fx)
  | FetchResult.jsError =>
    let (r, fx) := loadFallbackTranslations fallback
    (r, I18nEffect.fetchLang lang ::
        I18nEffect.logError ("Error loading translations:") :: fx)

/-- `I18n.setLanguage(langCode)` (lines 112-124): early return on the
current language; otherwise update the language, persist it, reload
translations (awaited), and finally dispatch `languageChanged`. -/
def setLanguage (s : I18nState) (langCode : String) (primary : FetchResult)
    (fallback : Option TValue) : I18nState × List I18nEffect :=
  if s.currentLanguage = langCode then (s, [])
  else
    let s1 : I18nState := { s with currentLanguage := langCode }
    let (tbl, fx) := loadTranslations langCode primary fallback
    let s2 : I18nState :=
      match tbl with
      | some doc => { s1 with translations := doc }
      | none => s1
    (s2, I18nEffect.storageWrite ("sakha-language") langCode ::
         fx ++ [I18nEffect.langEvent langCode])

/-- Recogniser for persisted-storage writes in an effect trace. -/
def isStorageWrite : I18nEffect → Bool
  | I18nEffect.storageWrite _ _ => true
  | _ => false

/-- Recogniser for dispatched `languageChanged` events in a trace. -/
def isLangEvent : I18nEffect → Bool
  | I18nEffect.langEvent _ => true
  | _ => false

/-! ### `SakhaAI.formatMessage` (src/static/script.js, lines 254-278)

Each regex replacement of the method becomes one character-level pass,
applied in the source's order.  Scanners that can consume more than one
character per step carry fuel equal to the input length. -/

/-- Searches for the lazy close of `/\*\*(.*?)\*\*/`: the earliest `**`
reachable without crossing a newline (`.` does not match `\n`); returns
the captured group and the text after the close. -/
def boldClose : List Char → Option (List Char × List Char)
  | [] => none
  | c :: cs =>
    if c = '\n' then none
    else if c = '*' ∧ cs.head? = some '*' then some ([], cs.tail)
    else
      match boldClose cs with
      | some (g, r) => some (c :: g, r)
      | none => none

/-- `.replace(/\*\*(.*?)\*\*/g, '<strong>$1</strong>')` (line 258). -/
def boldAux : Nat → List Char → List Char
  | 0, l => l
  | _ + 1, [] => []
  | f + 1, c :: cs =>
    if c = '*' ∧ cs.head? = some '*' then
      match boldClose cs.tail with
      | some (g, r) =>
        ("<strong>").data ++ g ++ ("</strong>").data ++ boldAux f r
      | none => c :: boldAux f cs
    else c :: boldAux f cs

/-- Searches for the lazy close of `/\*(.*?)\*/`: the earliest `*`
reachable without crossing a newline. -/
def italClose : List Char → Option (List Char × List Char)
  | [] => none
  | c :: cs =>
    if c = '\n' then none
    else if c = '*' then some ([], cs)
    else
      match italClose cs with
      | some (g, r) => some (c :: g, r)
      | none => none

/-- `.replace(/\*(.*?)\*/g, '<em>$1</em>')` (line 260). -/
def italAux : Nat → List Char → List Char
  | 0, l => l
  | _ + 1, [] => []
  | f + 1, c :: cs =>
    if c = '*' then
      match italClose cs with
      | some (g, r) => ("<em>").data ++ g ++ ("</em>").data ++ italAux f r
      | none => c :: italAux f cs
    else c :: italAux f cs

/-- `.replace(/\n/g, '<br>')` (line 262). -/
def brReplace : List Char → List Char
  | [] => []
  | c :: cs =>
    if c = '\n' then ("<br>").data ++ brReplace cs else c :: brReplace cs

/-- The `[^\s<>]` character class of the URL pattern. -/
def isUrlChar (c : Char) : Bool :=
  !(isJsSpace c || c == '<' || c == '>')

/-- The literal alternatives `https://` / `http://` at the head of the
pattern `https?:\/\/` (no other backtrack of the optional `s` can match). -/
def urlOpenLen (l : List Char) : Option Nat :=
  if leadsWith (("https://").data) l then some 8
  else if leadsWith (("http://").data) l then some 7
  else none

/-- `.replace(/https?:\/\/[^\s<>]+/g, '<a href="$&" target="_blank"
rel="noopener noreferrer">$&</a>')` (line 264); `[^\s<>]+` is greedy and
must be non-empty. -/
def urlAux : Nat → List Char → List Char
  | 0, l => l
  | _ + 1, [] => []
  | f + 1, c :: cs =>
    match urlOpenLen (c :: cs) with
    | some n =>
      let rest := (c :: cs).drop n
      let u := rest.takeWhile isUrlChar
      if u = [] then c :: urlAux f cs
      else
        let url := (c :: cs).take n ++ u
        ("<a href=\"").data ++ url ++
          ("\" target=\"_blank\" rel=\"noopener noreferrer\">").data ++ url ++
          ("</a>").data ++ urlAux f (rest.dropWhile isUrlChar)
    | none => c :: urlAux f cs

/-- `.replace(/---/g, '<hr>')` (line 266). -/
def hrAux : Nat → List Char → List Char
  | 0, l => l
  | _ + 1, [] => []
  | f + 1, c :: cs =>
    if leadsWith (("---").data) (c :: cs) then
      ("<hr>").data ++ hrAux f ((c :: cs).drop 3)
    else c :: hrAux f cs

/-- Splits on `'\n'` for the `m`-flag patterns: `^` matches only at the
string start and right after a newline, `(.*$)` captures to the line end. -/
def splitLinesCL : List Char → List (List Char)
  | [] => [[]]
  | c :: cs =>
    if c = '\n' then [] :: splitLinesCL cs
    else
      match splitLinesCL cs with
      | l :: ls => (c :: l) :: ls
      | [] => [[c]]

/-- Rejoins the lines of `splitLinesCL` with `'\n'`. -/
def joinLines : List (List Char) → List Char
  | [] => []
  | [l] => l
  | l :: ls => l ++ '\n' :: joinLines ls

/-- Applies a whole-line replacement under the `gm` flags. -/
def mapLines (g : List Char → List Char) (l : List Char) : List Char :=
  joinLines ((splitLinesCL l).map g)

/-- One line of `.replace(/^### (.*$)/gm, '<h4>$1</h4>')` (line 268). -/
def h4Line (l : List Char) : List Char :=
  if leadsWith (("### ").data) l then
    ("<h4>").data ++ l.drop 4 ++ ("</h4>").data
  else l

/-- One line of `.replace(/^## (.*$)/gm, '<h3>$1</h3>')` (line 269). -/
def h3Line (l : List Char) : List Char :=
  if leadsWith (("## ").data) l then
    ("<h3>").data ++ l.drop 3 ++ ("</h3>").data
  else l

/-- One line of `.replace(/^• (.*$)/gm, '<li>$1</li>')` (line 271). -/
def bulletLine (l : List Char) : List Char :=
  if leadsWith (("• ").data) l then
    ("<li>").data ++ l.drop 2 ++ ("</li>").data
  else l

/-- One line of `.replace(/^- (.*$)/gm, '<li>$1</li>')` (line 272). -/
def dashLine (l : List Char) : List Char :=
  if leadsWith (("- ").data) l then
    ("<li>").data ++ l.drop 2 ++ ("</li>").data
  else l

/-- Start positions of every occurrence of `pat` in `l`. -/
def occs (pat : List Char) : List Char → List Nat
  | [] => []
  | c :: cs =>
    (if leadsWith pat (c :: cs) then [0] else []) ++
      (occs pat cs).map (fun n => n + 1)

/-- `formatted.replace(/(<li>.*<\/li>)(\s*<li>.*<\/li>)*/g, '<ul>$&</ul>')`
(line 275) on a newline-free string (by this stage every `\n` has become
`<br>`): the greedy `.*` of the first group stretches the single match
from the first `<li>` to the end of the last `</li>`, the starred group
then matches zero times, and no further match remains on either side. -/
def wrapLis (l : List Char) : List Char :=
  match (occs (("<li>").data) l).head?, (occs (("</li>").data) l).getLast? with
  | some i, some j =>
    if i + 4 ≤ j then
      l.take i ++ ("<ul>").data ++ (l.drop i).take (j + 5 - i) ++
        ("</ul>").data ++ l.drop (j + 5)
    else l
  | _, _ => l

/-- `SakhaAI.formatMessage(content)` (lines 254-278): the eight
replacement passes in source order. -/
def formatMessage (content : String) : String :=
  let s1 := boldAux content.data.length content.data
  let s2 := italAux s1.length s1
  let s3 := brReplace s2
  let s4 := urlAux s3.length s3
  let s5 := hrAux s4.length s4
  let s6 := mapLines h4Line s5
  let s7 := mapLines h3Line s6
  let s8 := mapLines bulletLine s7
  let s9 := mapLines dashLine s8
  String.mk (wrapLis s9)

/-! ### The `SakhaAI` controller state (src/static/script.js) -/

/-- One mode selector button: its `data-mode` attribute and whether its
class list currently contains `active`. -/
structure ModeBtn where
  dataMode : String
  active : Bool
deriving DecidableEq

/-- One transcript entry as built by `addMessage`: the content passed in,
the sender class (`"user"` / `"assistant"`), the error flag (the red
error styling of lines 234-238), and the text actually inserted into the
message node (`innerHTML` via `formatMessage` for assistant messages,
`textContent` verbatim for user messages, lines 240-245). -/
structure Msg where
  content : String
  sender : String
  isError : Bool
  rendered : String
deriving DecidableEq

/-- The DOM-backed state the `SakhaAI` instance mutates. -/
structure UIState where
  isConnected : Bool
  currentMode : String
  modeButtons : List ModeBtn
  inputValue : String
  inputPlaceholder : String
  welcomeVisible : Bool
  chatVisible : Bool
  transcript : List Msg
  loadingShown : Bool
  crisisShown : Bool
  sendDisabled : Bool
  statusDotDisconnected : Bool
  statusText : String
deriving DecidableEq

/-- `SakhaAI.addMessage(content, sender, isError)` (lines 223-252):
appends one message node to the messages container. -/
def addMessage (s : UIState) (content sender : String) (isError : Bool) :
    UIState :=
  { s with transcript := s.transcript ++
      [{ content := content, sender := sender, isError := isError,
         rendered := if sender = "assistant" then formatMessage content
                     else content }] }

/-- `SakhaAI.updatePlaceholders` (lines 105-110): with an `I18n` present,
set the input placeholder from key `app.placeholders.<currentMode>`. -/
def updatePlaceholdersState (s : UIState) (i18n : Option I18nState) :
    UIState :=
  match i18n with
  | some st =>
    let p := tStr st.translations (("app.placeholders.") ++ s.currentMode)
    { s with inputPlaceholder := p }
  | none => s

/-- `document.querySelector('[data-mode="<mode>"]')` over the mode
buttons: the first matching control, if any. -/
def findBtn (mode : String) : List ModeBtn → Option ModeBtn
  | [] => none
  | b :: bs => if b.dataMode = mode then some b else findBtn mode bs

/-- `classList.add('active')` on the first control matching `mode`. -/
def activateFirst (mode : String) : List ModeBtn → List ModeBtn
  | [] => []
  | b :: bs =>
    if b.dataMode = mode then { b with active := true } :: bs
    else b :: activateFirst mode bs

/-- Result of `SakhaAI.setMode`: `ok` with the final state, or `thrown`
with the state at the moment the `TypeError` escapes (calling
`classList` on the `null` that `querySelector` returned). -/
inductive SetModeResult where
  | ok : UIState → SetModeResult
  | thrown : UIState → SetModeResult

/-- `SakhaAI.setMode(mode)` (lines 112-124): store the mode, strip
`active` from every mode button, then `querySelector` the matching
control — which throws when no control carries that `data-mode` —
and finally mark it active and refresh the placeholder. -/
def setMode (s : UIState) (i18n : Option I18nState) (mode : String) :
    SetModeResult :=
  let s1 : UIState := { s with currentMode := mode }
  let cleared := s1.modeButtons.map (fun b => { b with active := false })
  let s2 : UIState := { s1 with modeButtons := cleared }
  match findBtn mode cleared with
  | some _ =>
    SetModeResult.ok
      (updatePlaceholdersState { s2 with modeButtons := activateFirst mode cleared } i18n)
  | none => SetModeResult.thrown s2

/-- The state whichever way `setMode` returned. -/
def smState : SetModeResult → UIState
  | SetModeResult.ok s => s
  | SetModeResult.thrown s => s

/-- `SakhaAI.updateConnectionStatus(connected, aiEnabled)` (lines
149-162): store the flag, restyle the status indicator with the
localized status string, and re-gate the send button. -/
def updateConnectionStatus (s : UIState) (i18n : Option I18nState)
    (connected aiEnabled : Bool) : UIState :=
  let s1 : UIState := { s with isConnected := connected }
  let connText : String :=
    match i18n with
    | some st =>
      tStr st.translations
        (if aiEnabled then ("app.status.aiReady")
         else ("app.status.connectedLimited"))
    | none => if aiEnabled then "AI Ready" else "Connected (Limited AI)"
  let discText : String :=
    match i18n with
    | some st => tStr st.translations ("app.status.disconnected")
    | none => "Disconnected"
  let s2 : UIState :=
    if connected then
      { s1 with statusDotDisconnected := false, statusText := connText }
    else
      { s1 with statusDotDisconnected := true, statusText := discText }
  { s2 with sendDisabled := !connected || (trimmed s.inputValue) = "" }

/-- Outcome of the one `/api/health` round trip in `checkHealth`. -/
inductive HealthOutcome where
  | ok : Bool → Bool → HealthOutcome
  | netFail : HealthOutcome

/-- `SakhaAI.checkHealth` (lines 133-147): `Connected` exactly when the
body reports status `"healthy"` (carrying `ai_enabled`); any other body
or a transport failure yields `Disconnected`. -/
def checkHealth (s : UIState) (i18n : Option I18nState)
    (outcome : HealthOutcome) : UIState :=
  match outcome with
  | HealthOutcome.ok true ai => updateConnectionStatus s i18n true ai
  | HealthOutcome.ok false _ => updateConnectionStatus s i18n false false
  | HealthOutcome.netFail => updateConnectionStatus s i18n false false

/-- Outcome of the one `/api/chat` round trip in `sendMessage`:
a 2xx response with parsed body, a non-ok status (line 199 throws), or a
transport/parse rejection. -/
inductive ChatOutcome where
  | success : String → Bool → ChatOutcome
  | httpError : Nat → ChatOutcome
  | netFail : ChatOutcome

/-- The request body `{message, mode, language}` posted to `/api/chat`. -/
structure ChatRequest where
  message : String
  mode : String
  language : String
deriving DecidableEq

/-- The hard-coded English fallback used when `window.i18n` is absent
(line 218). -/
def defaultErrorText : String :=
  "I apologize, but I\x27m having trouble connecting right now. Please try again in a moment. If the problem persists, please refresh the page."

/-- The error text of the catch branch (line 218):
`window.i18n ? window.i18n.t('app.error') : '...'`. -/
def localizedError (i18n : Option I18nState) : String :=
  match i18n with
  | some st => tStr st.translations ("app.error")
  | none => defaultErrorText

/-- `SakhaAI.sendMessage` (lines 164-221).  Returns the final state and
the list of chat requests issued.  The guard of line 166 returns before
any side effect; afterwards the user message is appended optimistically,
the input is cleared and disabled, loading is shown, the request is
posted, and the response (or the catch branch) appends the assistant
turn. -/
def sendMessage (s : UIState) (i18n : Option I18nState)
    (outcome : ChatOutcome) : UIState × List ChatRequest :=
  let message := trimmed s.inputValue
  if message = "" ∨ s.isConnected = false then (s, [])
  else
    let s1 : UIState :=
      if s.welcomeVisible then
        { s with welcomeVisible := false, chatVisible := true }
      else s
    let s2 := addMessage s1 message ("user") false
    let s3 : UIState := { s2 with inputValue := "", sendDisabled := true }
    let s4 : UIState := { s3 with loadingShown := true }
    let req : ChatRequest :=
      { message := message, mode := s.currentMode,
        language :=
          match i18n with
          | some st => st.currentLanguage
          | none => "en" }
    match outcome with
    | ChatOutcome.success resp crisis =>
      let s5 : UIState := { s4 with loadingShown := false }
      let s6 := addMessage s5 resp ("assistant") false
      (if crisis then { s6 with crisisShown := true } else s6, [req])
    | _ =>
      let s5 : UIState := { s4 with loadingShown := false }
      (addMessage s5 (localizedError i18n) ("assistant") true, [req])

/-! ### Leaf strings decomposed into literal text and placeholders

To state what `t` does on a leaf string we view the leaf as a sequence of
segments: literal runs (containing no `{`, so no placeholder can begin
inside or straddle them) and well-formed `{{name}}` placeholders. -/

/-- A segment of a translation leaf: literal text, or a `{{name}}`
placeholder holding just the name. -/
inductive Seg where
  | lit : String → Seg
  | ph : String → Seg

/-- The source text of a segment. -/
def segString : Seg → String
  | Seg.lit s => s
  | Seg.ph n => ("\x7b\x7b") ++ n ++ ("\x7d\x7d")

/-- The leaf string a list of segments denotes. -/
def segsToString : List Seg → String
  | [] => ""
  | sg :: rest => segString sg ++ segsToString rest

/-- What one segment becomes after parameter substitution: literal text
is copied; a placeholder becomes `params[name]` when that parameter is
present and non-empty, and stays verbatim otherwise. -/
def renderSeg (ps : List (String × String)) : Seg → String
  | Seg.lit s => s
  | Seg.ph n => renderPh ps n

/-- The substituted form of a whole segment list. -/
def renderSegs (ps : List (String × String)) : List Seg → String
  | [] => ""
  | sg :: rest => renderSeg ps sg ++ renderSegs ps rest

/-- Well-formedness: literal segments contain no `{`; placeholder names
are non-empty runs of word characters. -/
def segWFb : Seg → Bool
  | Seg.lit s => s.data.all (fun c => !(c == '\x7b'))
  | Seg.ph n => (!n.data.isEmpty) && n.data.all isWordChar

/-! ### Lemmas about the placeholder scanner -/

theorem strDataAppend (s u : String) : (s ++ u).data = s.data ++ u.data := by
  cases s; cases u; rfl

theorem substAuxF_nil (ps : List (String × String)) (f : Nat) :
    substAuxF ps f [] = [] := by
  cases f <;> rfl

theorem braceOpen_ne (c : Char) (cs : List Char) (hc : c ≠ '\x7b') :
    braceOpen c cs = none := by
  cases cs with
  | nil => rfl
  | cons d rest =>
    simp only [braceOpen]
    rw [if_neg]
    intro h
    exact hc h.1

theorem substAuxF_cons_ne (ps : List (String × String)) (f : Nat)
    (c : Char) (cs : List Char) (hc : c ≠ '\x7b') :
    substAuxF ps (f + 1) (c :: cs) = c :: substAuxF ps f cs := by
  simp only [substAuxF, braceOpen_ne c cs hc]

theorem takeWhile_run (p : Char → Bool) :
    ∀ (xs : List Char) (y : Char) (ys : List Char),
      (∀ c ∈ xs, p c = true) → p y = false →
      (xs ++ y :: ys).takeWhile p = xs := by
  intro xs
  induction xs with
  | nil =>
    intro y ys _ hy
    simp [List.takeWhile, hy]
  | cons x xs ih =>
    intro y ys hall hy
    have hx : p x = true := hall x (by simp)
    simp only [List.cons_append, List.takeWhile, hx, List.append_eq]
    rw [ih y ys (fun c hc => hall c (by simp [hc])) hy]

theorem dropWhile_run (p : Char → Bool) :
    ∀ (xs : List Char) (y : Char) (ys : List Char),
      (∀ c ∈ xs, p c = true) → p y = false →
      (xs ++ y :: ys).dropWhile p = y :: ys := by
  intro xs
  induction xs with
  | nil =>
    intro y ys _ hy
    simp [List.dropWhile, hy]
  | cons x xs ih =>
    intro y ys hall hy
    have hx : p x = true := hall x (by simp)
    simp only [List.cons_append, List.dropWhile, hx, List.append_eq]
    exact ih y ys (fun c hc => hall c (by simp [hc])) hy

theorem strMkData (s : String) : String.mk s.data = s := rfl

theorem bracesOpenData : ("\x7b\x7b").data = ['\x7b', '\x7b'] := rfl

theorem bracesCloseData : ("\x7d\x7d").data = ['\x7d', '\x7d'] := rfl

theorem substAuxF_copy (ps : List (String × String)) :
    ∀ (cs : List Char) (f : Nat) (l : List Char),
      (∀ c ∈ cs, c ≠ '\x7b') → cs.length + l.length ≤ f →
      substAuxF ps f (cs ++ l) = cs ++ substAuxF ps (f - cs.length) l := by
  intro cs
  induction cs with
  | nil =>
    intro f l _ _
    simp
  | cons c cs ih =>
    intro f l hall hlen
    simp only [List.length_cons] at hlen
    obtain ⟨f2, rfl⟩ : ∃ f2, f = f2 + 1 := by
      cases f with
      | zero => omega
      | succ n => exact ⟨n, rfl⟩
    have hc : c ≠ '\x7b' := hall c (by simp)
    rw [List.cons_append, substAuxF_cons_ne ps f2 c (cs ++ l) hc]
    rw [ih f2 l (fun d hd => hall d (by simp [hd])) (by omega)]
    simp [Nat.succ_sub_succ]

theorem substAuxF_ph (ps : List (String × String)) (f : Nat)
    (nd : List Char) (l : List Char)
    (hw : ∀ c ∈ nd, isWordChar c = true) (hne : nd ≠ []) :
    substAuxF ps (f + 1) ('\x7b' :: '\x7b' :: (nd ++ '\x7d' :: '\x7d' :: l)) =
      (renderPh ps (String.mk nd)).data ++ substAuxF ps f l := by
  have hbrace : braceOpen '\x7b' ('\x7b' :: (nd ++ '\x7d' :: '\x7d' :: l)) =
      some (nd ++ '\x7d' :: '\x7d' :: l) := by
    simp [braceOpen]
  have hwc : isWordChar '\x7d' = false := by decide
  have htake := takeWhile_run isWordChar nd '\x7d' ('\x7d' :: l) hw hwc
  have hdrop := dropWhile_run isWordChar nd '\x7d' ('\x7d' :: l) hw hwc
  have hmatch : phMatch (nd ++ '\x7d' :: '\x7d' :: l) = some (nd, l) := by
    simp only [phMatch, htake, hdrop]
    simp [hne]
  simp only [substAuxF, hbrace, hmatch]

theorem substAuxF_segs (ps : List (String × String)) :
    ∀ (segs : List Seg) (f : Nat),
      (∀ sg ∈ segs, segWFb sg = true) →
      (segsToString segs).data.length ≤ f →
      substAuxF ps f (segsToString segs).data = (renderSegs ps segs).data := by
  intro segs
  induction segs with
  | nil =>
    intro f _ _
    exact substAuxF_nil ps f
  | cons sg rest ih =>
    intro f hall hlen
    have hsg := hall sg (by simp)
    have hrest : ∀ x ∈ rest, segWFb x = true := fun x hx => hall x (by simp [hx])
    cases sg with
    | lit s =>
      have hdata : (segsToString (Seg.lit s :: rest)).data =
          s.data ++ (segsToString rest).data := by
        simp [segsToString, segString, strDataAppend]
      rw [hdata] at hlen ⊢
      simp only [List.length_append] at hlen
      have hnb : ∀ c ∈ s.data, c ≠ '\x7b' := by
        intro c hc
        have h1 := List.all_eq_true.mp hsg c hc
        simpa using h1
      rw [substAuxF_copy ps s.data f (segsToString rest).data hnb (by omega)]
      rw [ih (f - s.data.length) hrest (by omega)]
      simp [renderSegs, renderSeg, strDataAppend]
    | ph n =>
      have hdata : (segsToString (Seg.ph n :: rest)).data =
          '\x7b' :: '\x7b' :: (n.data ++ '\x7d' :: '\x7d' :: (segsToString rest).data) := by
        simp [segsToString, segString, strDataAppend, bracesOpenData, bracesCloseData]
      rw [hdata] at hlen ⊢
      simp only [List.length_cons, List.length_append] at hlen
      obtain ⟨f2, rfl⟩ : ∃ f2, f = f2 + 1 := by
        cases f with
        | zero => omega
        | succ m => exact ⟨m, rfl⟩
      simp only [segWFb, Bool.and_eq_true] at hsg
      have hne : n.data ≠ [] := by
        intro h0
        rw [h0] at hsg
        simp at hsg
      have hw : ∀ c ∈ n.data, isWordChar c = true := List.all_eq_true.mp hsg.2
      rw [substAuxF_ph ps f2 n.data (segsToString rest).data hw hne]
      rw [ih f2 hrest (by omega)]
      simp [renderSegs, renderSeg, strDataAppend, strMkData]

/-! ### Concrete states shared by the lemmas below -/

/-- A small translation table in the shape of the shipped language files. -/
def demoTable : TValue :=
  TValue.obj [(("app"), TValue.obj [(("title"), TValue.str ("Sakha"))])]

/-- A table whose leaf holds one placeholder. -/
def greetTable : TValue :=
  TValue.obj [(("greet"), TValue.str ("Hello \x7b\x7bname\x7d\x7d"))]

/-- A connected controller state with whitespace-only input. -/
def uiDemo : UIState :=
  { isConnected := true, currentMode := "normal",
    modeButtons := [{ dataMode := "normal", active := true }],
    inputValue := "   ", inputPlaceholder := "", welcomeVisible := true,
    chatVisible := false, transcript := [], loadingShown := false,
    crisisShown := false, sendDisabled := true,
    statusDotDisconnected := false, statusText := "AI Ready" }

/-- A connected controller state with a pending message. -/
def uiReady : UIState :=
  { uiDemo with inputValue := "hello" }

/-- A fresh `I18n` instance state. -/
def i18nDemo : I18nState :=
  { currentLanguage := "en", translations := demoTable }

/-! ### Claim C1 -/

/-- Claim C1 counterexample: the key `app` resolves, but to a nested
object rather than a string leaf, and `t` returns that object — not the
original key string as the claim asserts for every path that fails to
resolve to a string leaf. -/
theorem c1_object_result_counterexample :
    resolve demoTable (keySegs ("app")) =
      some (TValue.obj [(("title"), TValue.str ("Sakha"))]) ∧
    t demoTable ("app") [] ≠ TValue.str ("app") :=
  ⟨rfl, fun h => TValue.noConfusion h⟩

/-- Claim C1 (amended): when any dot-separated segment of the key is
missing (the walk fails), `t` returns the original key unchanged and
never throws; but when the full path resolves to a nested object rather
than a string leaf, `t` returns that object instead of the key. -/
theorem c1_missing_segment_returns_key (table : TValue) (key : String)
    (ps : List (String × String)) :
    (resolve table (keySegs key) = none → t table key ps = TValue.str key) ∧
    (∀ m, resolve table (keySegs key) = some (TValue.obj m) →
      t table key ps = TValue.obj m) := by
  constructor
  · intro h
    simp [t, h]
  · intro m h
    simp [t, h]

/-- Witness for C1 at concrete inputs: a missing key comes back
unchanged, and a key resolving to a nested object comes back as that
object. -/
theorem c1_missing_segment_returns_key_witness :
    (resolve demoTable (keySegs ("app.missing")) = none ∧
      t demoTable ("app.missing") [] = TValue.str ("app.missing")) ∧
    (resolve demoTable (keySegs ("app")) =
        some (TValue.obj [(("title"), TValue.str ("Sakha"))]) ∧
      t demoTable ("app") [] = TValue.obj [(("title"), TValue.str ("Sakha"))]) :=
  ⟨⟨rfl, (c1_missing_segment_returns_key demoTable ("app.missing") []).1 rfl⟩,
   ⟨rfl, (c1_missing_segment_returns_key demoTable ("app") []).2 _ rfl⟩⟩

/-! ### Claim C2 -/

/-- Claim C2 counterexample: `params` has an entry named `name`, but its
value is the empty string, which is falsy in `params[param] || match` —
so the placeholder is left verbatim instead of being replaced by
`params[name]` as the claim requires for every present entry. -/
theorem c2_empty_param_counterexample :
    t greetTable ("greet") [(("name"), "")] =
      TValue.str ("Hello \x7b\x7bname\x7d\x7d") ∧
    ("Hello \x7b\x7bname\x7d\x7d" : String) ≠ ("Hello ") :=
  ⟨rfl, by decide⟩

/-- Claim C2 (amended): for every key path resolving to a string leaf —
viewed as well-formed segments of brace-free literal text and `{{name}}`
placeholders — `t(key, params)` returns exactly that leaf with every
placeholder replaced by `params[name]` whenever `params` supplies a
non-empty value for `name`, and left verbatim whenever the parameter is
absent or empty. -/
theorem c2_leaf_substitution (table : TValue) (key : String)
    (ps : List (String × String)) (segs : List Seg)
    (hwf : ∀ sg ∈ segs, segWFb sg = true)
    (hres : resolve table (keySegs key) =
      some (TValue.str (segsToString segs))) :
    t table key ps = TValue.str (renderSegs ps segs) := by
  unfold t
  rw [hres]
  show TValue.str (substPlaceholders ps (segsToString segs)) =
    TValue.str (renderSegs ps segs)
  congr 1
  unfold substPlaceholders
  rw [substAuxF_segs ps segs (segsToString segs).data.length hwf le_rfl]

/-- Witness for C2: a leaf `Hello {{name}}!` with a supplied non-empty
parameter substitutes, and with the parameter absent stays verbatim. -/
theorem c2_leaf_substitution_witness :
    t (TValue.obj [(("greet"), TValue.str ("Hello \x7b\x7bname\x7d\x7d!"))])
        ("greet") [(("name"), "Dev")] = TValue.str ("Hello Dev!") ∧
    t (TValue.obj [(("greet"), TValue.str ("Hello \x7b\x7bname\x7d\x7d!"))])
        ("greet") [] = TValue.str ("Hello \x7b\x7bname\x7d\x7d!") :=
  ⟨(c2_leaf_substitution
      (TValue.obj [(("greet"), TValue.str ("Hello \x7b\x7bname\x7d\x7d!"))])
      ("greet") [(("name"), "Dev")]
      [Seg.lit ("Hello "), Seg.ph ("name"), Seg.lit ("!")]
      (by decide) rfl).trans rfl,
   (c2_leaf_substitution
      (TValue.obj [(("greet"), TValue.str ("Hello \x7b\x7bname\x7d\x7d!"))])
      ("greet") []
      [Seg.lit ("Hello "), Seg.ph ("name"), Seg.lit ("!")]
      (by decide) rfl).trans rfl⟩

/-! ### Claim C3 -/

/-- Claim C3 (code-bug evidence): on `"- a\n- b"` the code produces one
enclosing list holding a single item that contains both lines joined by
`<br>` — because the newline pass of line 262 runs before the
line-anchored bullet pass of line 272, which therefore can only match at
the start of the whole string.  The second conjunct counts exactly one
`<li>` in the output, contradicting the specified two items. -/
theorem c3_single_item_list_behaviour :
    formatMessage ("- a\n- b") = "<ul><li>a<br>- b</li></ul>" ∧
    (occs (("<li>").data) (("<ul><li>a<br>- b</li></ul>").data)).length = 1 :=
  ⟨rfl, rfl⟩

/-! ### Claim C4 -/

/-- Claim C4: `formatMessage "**bold** and *italic*"` yields
strong-wrapped `bold` and emphasis-wrapped `italic` with no markup from
either rule leaking into the other (the bold pass of line 258 runs
before, and is not consumed by, the italic pass of line 260). -/
theorem c4_bold_italic_no_leak :
    formatMessage ("**bold** and *italic*") =
      "<strong>bold</strong> and <em>italic</em>" := rfl

/-! ### Claim C5 -/

/-- Claim C5: when the trimmed input is empty, or while the controller is
not connected, `sendMessage` is a complete no-op — the state (transcript
included) is unchanged and no chat request is issued. -/
theorem c5_guard_no_op (s : UIState) (i18n : Option I18nState)
    (outcome : ChatOutcome)
    (h : trimmed s.inputValue = "" ∨ s.isConnected = false) :
    sendMessage s i18n outcome = (s, []) := by
  unfold sendMessage
  rw [if_pos h]

/-- Witness for C5: whitespace-only input on a connected state, and
non-empty input on a disconnected state, both do nothing. -/
theorem c5_guard_no_op_witness :
    sendMessage uiDemo none ChatOutcome.netFail = (uiDemo, []) ∧
    sendMessage { uiReady with isConnected := false } none
        (ChatOutcome.success ("hi") false) =
      ({ uiReady with isConnected := false }, []) :=
  ⟨c5_guard_no_op uiDemo none ChatOutcome.netFail (Or.inl rfl),
   c5_guard_no_op { uiReady with isConnected := false } none
     (ChatOutcome.success ("hi") false) (Or.inr rfl)⟩

/-! ### Claim C6 -/

/-- Claim C6: `setLanguage` on the current language is a no-op: the state
is unchanged and the effect trace is empty — no reload, no storage write,
no broadcast. -/
theorem c6_same_language_no_op (s : I18nState) (code : String)
    (primary : FetchResult) (fallback : Option TValue)
    (h : s.currentLanguage = code) :
    setLanguage s code primary fallback = (s, []) := by
  unfold setLanguage
  rw [if_pos h]

/-- Witness for C6 on a concrete state. -/
theorem c6_same_language_no_op_witness :
    setLanguage i18nDemo ("en") FetchResult.notOk none = (i18nDemo, []) :=
  c6_same_language_no_op i18nDemo ("en") FetchResult.notOk none rfl

/-! ### Claim C7 -/

/-- Claim C7: `setLanguage` to a different code performs exactly one
persisted-storage write (of the new code under `sakha-language`),
broadcasts exactly one `languageChanged` event carrying the new code,
and that event is the last effect of the trace — after the reload
(success or fallback) has settled. -/
theorem c7_language_change_trace (s : I18nState) (code : String)
    (primary : FetchResult) (fallback : Option TValue)
    (h : s.currentLanguage ≠ code) :
    (setLanguage s code primary fallback).2.filter isStorageWrite =
        [I18nEffect.storageWrite ("sakha-language") code] ∧
    (setLanguage s code primary fallback).2.filter isLangEvent =
        [I18nEffect.langEvent code] ∧
    (setLanguage s code primary fallback).2.getLast? =
        some (I18nEffect.langEvent code) := by
  unfold setLanguage
  rw [if_neg h]
  cases primary <;> cases fallback <;>
    simp [loadTranslations, loadFallbackTranslations, isStorageWrite, isLangEvent]

/-- Witness for C7: switching `en → hi` with a successful reload. -/
theorem c7_language_change_trace_witness :
    (setLanguage i18nDemo ("hi") (FetchResult.success (TValue.obj [])) none).2.filter
        isStorageWrite = [I18nEffect.storageWrite ("sakha-language") ("hi")] ∧
    (setLanguage i18nDemo ("hi") (FetchResult.success (TValue.obj [])) none).2.filter
        isLangEvent = [I18nEffect.langEvent ("hi")] ∧
    (setLanguage i18nDemo ("hi") (FetchResult.success (TValue.obj [])) none).2.getLast? =
        some (I18nEffect.langEvent ("hi")) :=
  c7_language_change_trace i18nDemo ("hi") (FetchResult.success (TValue.obj []))
    none (by decide)

/-! ### Claim C8 -/

/-- Claim C8: every send whose chat request fails (non-ok HTTP status or
transport error) appends exactly the user's entry followed by exactly one
error-flagged assistant entry whose content is the localized generic
error string, hides the loading indicator, and does not show the crisis
affordance. -/
theorem c8_failed_send (s : UIState) (i18n : Option I18nState)
    (outcome : ChatOutcome)
    (hmsg : trimmed s.inputValue ≠ "")
    (hconn : s.isConnected = true)
    (hcrisis : s.crisisShown = false)
    (hfail : outcome = ChatOutcome.netFail ∨
      ∃ n, outcome = ChatOutcome.httpError n) :
    (sendMessage s i18n outcome).1.transcript =
      s.transcript ++
        [{ content := trimmed s.inputValue, sender := "user", isError := false,
           rendered := trimmed s.inputValue },
         { content := localizedError i18n, sender := "assistant",
           isError := true,
           rendered := formatMessage (localizedError i18n) }] ∧
    (sendMessage s i18n outcome).1.loadingShown = false ∧
    (sendMessage s i18n outcome).1.crisisShown = false := by
  have hguard : ¬ (trimmed s.inputValue = "" ∨ s.isConnected = false) := by
    simp [hmsg, hconn]
  rcases hfail with rfl | ⟨n, rfl⟩ <;>
  · unfold sendMessage
    rw [if_neg hguard]
    by_cases hw : s.welcomeVisible <;>
      simp [hw, addMessage, hcrisis]

/-- Witness for C8: a pending `hello` on a connected state with a failing
transport. -/
theorem c8_failed_send_witness :
    (sendMessage uiReady none ChatOutcome.netFail).1.transcript =
      uiReady.transcript ++
        [{ content := trimmed uiReady.inputValue, sender := "user",
           isError := false, rendered := trimmed uiReady.inputValue },
         { content := localizedError none, sender := "assistant",
           isError := true, rendered := formatMessage (localizedError none) }] ∧
    (sendMessage uiReady none ChatOutcome.netFail).1.loadingShown = false ∧
    (sendMessage uiReady none ChatOutcome.netFail).1.crisisShown = false :=
  c8_failed_send uiReady none ChatOutcome.netFail (by decide) rfl rfl
    (Or.inl rfl)

/-! ### Claim C9 -/

/-- Claim C9: no run of `sendMessage` — successful, failed with a non-ok
status, or failed with a transport error — changes the connectivity
state (the connected flag and the status indicator carrying the
AI-enabled information); neither does appending a message or switching
mode.  Only `checkHealth` (via `updateConnectionStatus`) transitions
connectivity. -/
theorem c9_connectivity_frame (s : UIState) (i18n : Option I18nState)
    (outcome : ChatOutcome) (mode content sender : String) (isErr : Bool) :
    ((sendMessage s i18n outcome).1.isConnected = s.isConnected ∧
     (sendMessage s i18n outcome).1.statusDotDisconnected =
       s.statusDotDisconnected ∧
     (sendMessage s i18n outcome).1.statusText = s.statusText) ∧
    ((addMessage s content sender isErr).isConnected = s.isConnected ∧
     (addMessage s content sender isErr).statusDotDisconnected =
       s.statusDotDisconnected ∧
     (addMessage s content sender isErr).statusText = s.statusText) ∧
    ((smState (setMode s i18n mode)).isConnected = s.isConnected ∧
     (smState (setMode s i18n mode)).statusDotDisconnected =
       s.statusDotDisconnected ∧
     (smState (setMode s i18n mode)).statusText = s.statusText) := by
  refine ⟨?_, ?_, ?_⟩
  · by_cases hg : trimmed s.inputValue = "" ∨ s.isConnected = false
    · simp [sendMessage, hg]
    · cases outcome with
      | success resp crisis =>
        cases crisis <;> by_cases hw : s.welcomeVisible <;>
          simp [sendMessage, hg, hw, addMessage]
      | httpError n =>
        by_cases hw : s.welcomeVisible <;>
          simp [sendMessage, hg, hw, addMessage]
      | netFail =>
        by_cases hw : s.welcomeVisible <;>
          simp [sendMessage, hg, hw, addMessage]
  · simp [addMessage]
  · unfold setMode
    cases hfind : findBtn mode (s.modeButtons.map fun b => { b with active := false }) <;>
      cases i18n <;> simp [smState, updatePlaceholdersState, hfind]

/-! ### Claim C10 -/

/-- Claim C10 counterexample: calling `setMode` with a mode that matches
no control does throw after mutating `currentMode`, but not before
touching the UI: the `forEach` of lines 116-118 has already stripped the
`active` class from every mode control when the `querySelector` result is
dereferenced, so the active-state indicator has been updated (cleared),
contrary to the claim that the UI is left not updated. -/
theorem c10_cleared_buttons_counterexample :
    setMode uiDemo none ("zen") =
      SetModeResult.thrown
        { uiDemo with
          currentMode := "zen",
          modeButtons := [{ dataMode := "normal", active := false }] } ∧
    ({ dataMode := "normal", active := false } : ModeBtn) ≠
      { dataMode := "normal", active := true } :=
  ⟨rfl, by decide⟩

/-- Helper: `querySelector` over the mode buttons finds nothing when no
button carries the requested `data-mode`. -/
theorem findBtn_eq_none (mode : String) :
    ∀ l : List ModeBtn, (∀ b ∈ l, b.dataMode ≠ mode) →
      findBtn mode l = none := by
  intro l
  induction l with
  | nil => intro _; rfl
  | cons b bs ih =>
    intro h
    simp only [findBtn]
    rw [if_neg (h b (by simp))]
    exact ih (fun x hx => h x (by simp [hx]))

/-- Claim C10 (amended): for every mode matching no declared mode
control, `setMode` first mutates the current mode, then clears the
active flag of every mode control, and only then fails with a thrown
error — before marking any control active and before updating the
placeholder.  The state at the throw has the mode changed and all
active indicators cleared, with everything else untouched. -/
theorem c10_unmatched_mode_throws (s : UIState) (i18n : Option I18nState)
    (mode : String) (h : ∀ b ∈ s.modeButtons, b.dataMode ≠ mode) :
    setMode s i18n mode =
      SetModeResult.thrown
        { s with
          currentMode := mode,
          modeButtons := s.modeButtons.map fun b => { b with active := false } } := by
  have hfind : findBtn mode (s.modeButtons.map fun b => { b with active := false }) = none := by
    apply findBtn_eq_none
    intro b hb
    obtain ⟨a, ha, rfl⟩ := List.mem_map.mp hb
    exact h a ha
  simp [setMode, hfind]

/-- Witness for C10 on a concrete unmatched mode. -/
theorem c10_unmatched_mode_throws_witness :
    setMode uiDemo none ("focus") =
      SetModeResult.thrown
        { uiDemo with
          currentMode := "focus",
          modeButtons := [{ dataMode := "normal", active := false }] } :=
  c10_unmatched_mode_throws uiDemo none ("focus") (by decide)

end Sakha

